import Mathlib

/-!
Verification of the chat-UI component in `src/app/page.tsx`
(`HabitualCoder/vercel-ai-sdk-ui-examples`).

The component is presentational glue over the `useChat` hook: it renders an
ordered list of messages (each a list of heterogeneous content parts), gates
its controls on a session `status` string, owns the pending input text and a
(declared but unwired) file list, and forwards user intents (`send`, `stop`,
`regenerate`, `reload`, delete via `setMessages`) to the hook.

This file shallowly embeds that component: the JSX part dispatch becomes a
function from parts to display nodes, with `Except` modelling a thrown
exception during render (a throw in a React render aborts the whole tree);
the form `onSubmit` handler becomes a function from the local form state to
the emitted send payload and the next state; the `disabled` expressions on
the controls become Boolean functions of the status.
-/

namespace ChatUI

/-- The session status values reported by the `useChat` hook:
`ready`, `submitted`, `streaming`, `error` (`src/app/page.tsx` reads `status`
and compares it against these four string literals). -/
inductive SessionStatus where
  | ready
  | submitted
  | streaming
  | error
deriving DecidableEq

/-- A content part of a message, as the JSX dispatch reads it: a dynamic
object with a `type` tag and optional payload fields. Fields a given part
kind does not use stay `none`, matching an absent property on the JS
object. -/
structure Part where
  type : String
  text : Option String := none
  mediaType : Option String := none
  url : Option String := none
  filename : Option String := none
  title : Option String := none
  id : Option String := none
deriving DecidableEq

/-- Message metadata as read by the component:
`metadata?.createdAt` (a timestamp) and `metadata?.totalUsage.totalTokens`. -/
structure Metadata where
  createdAt : Option Nat := none
  totalTokens : Option Nat := none
deriving DecidableEq

/-- A chat message as the component reads it: `id`, `role`, `parts`,
optional `metadata`, and the legacy optional top-level `createdAt`. -/
structure Message where
  id : String
  role : String
  parts : List Part := []
  metadata : Option Metadata := none
  createdAt : Option Nat := none
deriving DecidableEq

/-! ## Control gating (`disabled` expressions on the controls) -/

/-- The text input: rendered with the disabled attribute whenever the status is not ready. -/
def textInputDisabled (s : SessionStatus) : Bool :=
  decide (s ≠ SessionStatus.ready)

/-- The Send button: disabled whenever the status is not ready. -/
def sendButtonDisabled (s : SessionStatus) : Bool :=
  decide (s ≠ SessionStatus.ready)

/-- The Stop button: disabled unless the status is streaming or submitted. -/
def stopButtonDisabled (s : SessionStatus) : Bool :=
  !(decide (s = SessionStatus.streaming) || decide (s = SessionStatus.submitted))

/-- The Regenerate button: disabled unless the status is ready or error. -/
def regenerateButtonDisabled (s : SessionStatus) : Bool :=
  !(decide (s = SessionStatus.ready) || decide (s = SessionStatus.error))

/-- Derived gate: sending is possible when both the Send button and the text
input are enabled. -/
def canSend (s : SessionStatus) : Bool :=
  !sendButtonDisabled s && !textInputDisabled s

/-- Derived gate: the Stop button is enabled. -/
def canStop (s : SessionStatus) : Bool :=
  !stopButtonDisabled s

/-- Derived gate: the Regenerate button is enabled. -/
def canRegenerate (s : SessionStatus) : Bool :=
  !regenerateButtonDisabled s

/-- C1: for every SessionStatus value the derived control gates hold exactly
as the claim states: `canSend` is true iff the status is `ready`; `canStop`
is true iff the status is `submitted` or `streaming`; `canRegenerate` is
true iff the status is `ready` or `error`. -/
theorem gate_table_exact (s : SessionStatus) :
    (canSend s = true ↔ s = SessionStatus.ready) ∧
    (canStop s = true ↔ s = SessionStatus.submitted ∨ s = SessionStatus.streaming) ∧
    (canRegenerate s = true ↔ s = SessionStatus.ready ∨ s = SessionStatus.error) := by
  cases s <;> simp [canSend, canStop, canRegenerate, sendButtonDisabled,
    textInputDisabled, stopButtonDisabled, regenerateButtonDisabled]

/-- Witness for C1: the gates evaluated at concrete statuses. -/
theorem gate_table_exact_witness :
    canSend SessionStatus.ready = true ∧
    canStop SessionStatus.streaming = true ∧
    canRegenerate SessionStatus.error = true :=
  ⟨(gate_table_exact SessionStatus.ready).1.mpr rfl,
   (gate_table_exact SessionStatus.streaming).2.1.mpr (Or.inr rfl),
   (gate_table_exact SessionStatus.error).2.2.mpr (Or.inr rfl)⟩

/-! ## Part rendering (the JSX dispatch over `message.parts`) -/

/-- A display node produced for one part: the shapes of the JSX elements the
dispatch returns. Optional fields mirror JSX attribute expressions that can
be `undefined` (e.g. `href={part.url}` with an absent `url`). -/
inductive Node where
  | textSpan (s : Option String)
  | reasoningPre (s : Option String)
  | image (src : Option String) (alt : String)
  | fileLink (href : Option String) (label : Option String)
  | sourceLink (href : Option String) (label : String)
  | docLabel (s : String)
deriving DecidableEq

/-- Characters allowed in a URL scheme after the first letter. -/
def isSchemeChar (c : Char) : Bool :=
  c.isAlpha || c.isDigit || c == '+' || c == '-' || c == '.'

/-- Scans scheme characters up to a colon; `none` when the colon is never
reached with only scheme characters before it. -/
def schemeTail : List Char → Option (List Char)
  | [] => none
  | c :: rest =>
    if c = ':' then some rest
    else if isSchemeChar c then schemeTail rest
    else none

/-- The host inside an authority component: drop the userinfo before the
last `@`, then drop the port after `:`. -/
def hostOfAuthority (auth : List Char) : List Char :=
  ((auth.reverse.takeWhile (fun c => c != '@')).reverse).takeWhile (fun c => c != ':')

/-- Model of the browser builtin `new URL(s).hostname`: `some hostname` when
the constructor succeeds and `none` when it throws a `TypeError`. Simplified
from the WHATWG algorithm: the string must start with an ASCII letter
followed by scheme characters and a colon, or the constructor throws; after
`://` the authority runs to the next `/`, `?` or `#`, the userinfo before an
`@` and a port after `:` are stripped and the host is lowercased (IPv6
bracket syntax is not modelled); a scheme not followed by `//` yields an
empty hostname. -/
def urlHostname (s : String) : Option String :=
  match s.data with
  | [] => none
  | c :: cs =>
    if c.isAlpha then
      match schemeTail cs with
      | none => none
      | some ('/' :: '/' :: rest) =>
        let auth := rest.takeWhile (fun ch => ch != '/' && ch != '?' && ch != '#')
        some (String.mk ((hostOfAuthority auth).map Char.toLower))
      | some _ => some ""
    else none

/-- Model of `s.startsWith(pre)` on JS strings: the characters of `pre`
lead those of `s`. -/
def strStartsWith (s pre : String) : Bool :=
  pre.data.isPrefixOf s.data

/-- Truthiness of the optional-chained media-type check
`part.mediaType?.startsWith("image/")`: the chaining yields undefined
(falsy) when the field is absent. -/
def mediaTypeIsImage (mediaType : Option String) : Bool :=
  match mediaType with
  | some mt => strStartsWith mt "image/"
  | none => false

/-- JS string conversion applied to a possibly-absent value, as done by the
`URL` constructor and by template-literal interpolation: an absent value
prints as `undefined`. -/
def jsShow (o : Option String) : String := o.getD "undefined"

/-- The part tags the dispatch recognizes. -/
def recognizedPartTypes : List String :=
  ["text", "reasoning", "file", "source-url", "source-document"]

/-- One arm of `message.parts.map`: `Except.error` models a thrown exception
during render (which aborts the enclosing React render), `Except.ok none`
models the `return null` fallback, `Except.ok (some n)` a rendered element.
The `source-url` arm evaluates `part.title ?? new URL(part.url).hostname`:
`??` short-circuits, so the `URL` constructor runs only when the title is
absent, and it throws when `part.url` does not parse. -/
def renderPart (p : Part) : Except String (Option Node) :=
  if p.type = "text" then
    Except.ok (some (Node.textSpan p.text))
  else if p.type = "reasoning" then
    Except.ok (some (Node.reasoningPre p.text))
  else if p.type = "file" then
    if mediaTypeIsImage p.mediaType then
      Except.ok (some (Node.image p.url (p.filename.getD "generated image")))
    else
      Except.ok (some (Node.fileLink p.url (p.filename.orElse fun _ => p.url)))
  else if p.type = "source-url" then
    match p.title with
    | some t => Except.ok (some (Node.sourceLink p.url t))
    | none =>
      match urlHostname (jsShow p.url) with
      | some h => Except.ok (some (Node.sourceLink p.url h))
      | none => Except.error "TypeError: Invalid URL"
  else if p.type = "source-document" then
    Except.ok (some (Node.docLabel (p.title.getD ("Document " ++ jsShow p.id))))
  else
    Except.ok none

/-- Prepends a rendered element to the displayed output; a `null` element
contributes nothing. -/
def consNode (n : Option Node) (rest : List Node) : List Node :=
  match n with
  | some node => node :: rest
  | none => rest

/-- Rendering of `message.parts.map` with left-to-right evaluation: the displayed
nodes of all parts, or the first thrown exception (which loses the whole
output of the whole message). -/
def renderParts : List Part → Except String (List Node)
  | [] => Except.ok []
  | p :: ps =>
    match renderPart p with
    | Except.error e => Except.error e
    | Except.ok n =>
      match renderParts ps with
      | Except.error e => Except.error e
      | Except.ok rest => Except.ok (consNode n rest)

/-- The metadata timestamp `message.metadata?.createdAt`. -/
def metadataCreatedAt (m : Message) : Option Nat :=
  m.metadata.bind Metadata.createdAt

/-- The timestamp fed to the display:
`new Date(message.metadata?.createdAt ?? message.createdAt ?? Date.now())`,
with `now` standing for `Date.now()` at this render. -/
def displayedTimestamp (m : Message) (now : Nat) : Nat :=
  match metadataCreatedAt m with
  | some t => t
  | none =>
    match m.createdAt with
    | some t => t
    | none => now

/-- One message bubble: rendered parts plus the footer data (timestamp and
optional token usage). -/
structure MessageBlock where
  role : String
  nodes : List Node
  timestamp : Nat
  usageTokens : Option Nat
deriving DecidableEq

/-- Renders one message; a thrown exception in any render arm of a part
loses the whole bubble. -/
def renderMessage (now : Nat) (m : Message) : Except String MessageBlock :=
  match renderParts m.parts with
  | Except.error e => Except.error e
  | Except.ok ns =>
    Except.ok { role := m.role, nodes := ns, timestamp := displayedTimestamp m now,
                usageTokens := m.metadata.bind Metadata.totalTokens }

/-- Rendering of `messages.map` in the JSX: renders every message in order;
a thrown exception anywhere aborts the render of the whole list. -/
def renderMessages (now : Nat) : List Message → Except String (List MessageBlock)
  | [] => Except.ok []
  | m :: ms =>
    match renderMessage now m with
    | Except.error e => Except.error e
    | Except.ok b =>
      match renderMessages now ms with
      | Except.error e => Except.error e
      | Except.ok bs => Except.ok (b :: bs)

/-- C6: a part whose type tag is not in the recognized set renders to no
output and no exception, and removing it from any position in a part list
leaves the rendered output of the list unchanged. -/
theorem unknown_part_skipped (p : Part) (h : p.type ∉ recognizedPartTypes)
    (l₁ l₂ : List Part) :
    renderPart p = Except.ok none ∧
    renderParts (l₁ ++ p :: l₂) = renderParts (l₁ ++ l₂) := by
  simp only [recognizedPartTypes, List.mem_cons, List.not_mem_nil, or_false] at h
  push_neg at h
  obtain ⟨h1, h2, h3, h4, h5⟩ := h
  have hp : renderPart p = Except.ok none := by
    simp [renderPart, h1, h2, h3, h4, h5]
  refine ⟨hp, ?_⟩
  induction l₁ with
  | nil =>
    cases hr : renderParts l₂ <;> simp [renderParts, hp, hr, consNode]
  | cons a t ih =>
    cases ha : renderPart a <;> simp [renderParts, ha, ih]

/-- Witness for C6: a part with tag `step-start` renders to nothing, and a
message of a text part followed by it renders the same as the text part
alone. -/
theorem unknown_part_skipped_witness :
    renderPart { type := "step-start" } = Except.ok none ∧
    renderParts [{ type := "text", text := some "hi" }, { type := "step-start" }]
      = renderParts [{ type := "text", text := some "hi" }] :=
  unknown_part_skipped { type := "step-start" } (by decide)
    [{ type := "text", text := some "hi" }] []

/-- C7: a file part whose media type starts with `image/` renders as an
embedded image with the URL of the part and filename-or-default alt text; a file
part with any other media type, or with the media type absent, renders
without throwing as a hyperlink labeled by filename-or-url. -/
theorem file_part_rendering (p : Part) (h : p.type = "file") :
    (∀ mt, p.mediaType = some mt → strStartsWith mt "image/" = true →
      renderPart p = Except.ok (some (Node.image p.url (p.filename.getD "generated image")))) ∧
    (∀ mt, p.mediaType = some mt → strStartsWith mt "image/" = false →
      renderPart p = Except.ok (some (Node.fileLink p.url (p.filename.orElse fun _ => p.url)))) ∧
    (p.mediaType = none →
      renderPart p = Except.ok (some (Node.fileLink p.url (p.filename.orElse fun _ => p.url)))) := by
  refine ⟨?_, ?_, ?_⟩
  · intro mt hmt himg
    simp [renderPart, h, mediaTypeIsImage, hmt, himg]
  · intro mt hmt himg
    simp [renderPart, h, mediaTypeIsImage, hmt, himg]
  · intro hmt
    simp [renderPart, h, mediaTypeIsImage, hmt]

/-- Witness for C7: a PNG file part renders as an image, a PDF file part as
a link, and a file part without a media type as a link. -/
theorem file_part_rendering_witness :
    renderPart { type := "file", mediaType := some "image/png",
                 url := some "u", filename := some "a.png" }
      = Except.ok (some (Node.image (some "u") "a.png")) ∧
    renderPart { type := "file", mediaType := some "application/pdf", url := some "u" }
      = Except.ok (some (Node.fileLink (some "u") (some "u"))) ∧
    renderPart { type := "file", url := some "u" }
      = Except.ok (some (Node.fileLink (some "u") (some "u"))) :=
  ⟨(file_part_rendering _ rfl).1 "image/png" rfl (by decide),
   (file_part_rendering _ rfl).2.1 "application/pdf" rfl (by decide),
   (file_part_rendering _ rfl).2.2 rfl⟩

/-- C9: the displayed timestamp follows the fallback chain: the metadata
`createdAt` when present, else the legacy message `createdAt` when present,
else the current time at render. -/
theorem timestamp_fallback_chain (m : Message) (now : Nat) :
    (∀ t, metadataCreatedAt m = some t → displayedTimestamp m now = t) ∧
    (metadataCreatedAt m = none →
      ∀ t, m.createdAt = some t → displayedTimestamp m now = t) ∧
    (metadataCreatedAt m = none → m.createdAt = none →
      displayedTimestamp m now = now) := by
  refine ⟨?_, ?_, ?_⟩ <;> intros <;> simp [displayedTimestamp, *]

/-- Witness for C9: the chain evaluated on three concrete messages, one per
case. -/
theorem timestamp_fallback_chain_witness :
    displayedTimestamp { id := "a", role := "user",
                         metadata := some { createdAt := some 42 },
                         createdAt := some 7 } 5 = 42 ∧
    displayedTimestamp { id := "b", role := "user", createdAt := some 7 } 5 = 7 ∧
    displayedTimestamp { id := "c", role := "user" } 5 = 5 :=
  ⟨(timestamp_fallback_chain _ 5).1 42 rfl,
   (timestamp_fallback_chain { id := "b", role := "user", createdAt := some 7 } 5).2.1
     rfl 7 rfl,
   (timestamp_fallback_chain { id := "c", role := "user" } 5).2.2 rfl rfl⟩

/-- C2: a source-url part with no title and a URL the `URL` constructor
rejects makes the whole render throw: the thrown `TypeError` from
`new URL(part.url).hostname` aborts not just the part but the sibling text
part, the containing message, and the sibling message. The claim instead
requires a best-effort fallback that never prevents siblings from
rendering. -/
theorem malformed_source_url_aborts_render :
    renderMessages 0
      [{ id := "m1", role := "user", parts := [{ type := "text", text := some "hi" }] },
       { id := "m2", role := "assistant",
         parts := [{ type := "text", text := some "answer" },
                   { type := "source-url", url := some "not a url" }] }]
      = Except.error "TypeError: Invalid URL" := by
  rfl

/-! ## Message deletion (`handleDelete`) -/

/-- Deletion handler `handleDelete`, which calls
`setMessages(messages.filter(msg => msg.id !== id))`: the list requested
from the hook when the delete button for `id` is clicked. -/
def handleDelete (id : String) (messages : List Message) : List Message :=
  messages.filter (fun msg => msg.id != id)

/-- C5: deleting by id requests exactly the messages whose id differs, in
their original order; a missing id makes it a no-op; and when the id occurs
once, exactly that message is removed. -/
theorem delete_removes_exactly_id (id : String) (msgs : List Message) :
    (handleDelete id msgs).Sublist msgs ∧
    (∀ m, m ∈ handleDelete id msgs ↔ m ∈ msgs ∧ m.id ≠ id) ∧
    ((∀ m ∈ msgs, m.id ≠ id) → handleDelete id msgs = msgs) ∧
    (∀ (l₁ l₂ : List Message) (m : Message), msgs = l₁ ++ m :: l₂ →
      m.id = id → (∀ x ∈ l₁, x.id ≠ id) → (∀ x ∈ l₂, x.id ≠ id) →
      handleDelete id msgs = l₁ ++ l₂) := by
  refine ⟨List.filter_sublist msgs, ?_, ?_, ?_⟩
  · intro m
    simp [handleDelete]
  · intro h
    simp only [handleDelete, List.filter_eq_self, bne_iff_ne, ne_eq, decide_not]
    intro m hm
    simpa using h m hm
  · intro l₁ l₂ m hsplit hm h₁ h₂
    subst hsplit
    simp only [handleDelete, List.filter_append, List.filter_cons]
    rw [if_neg (by simp [hm]), List.filter_eq_self.mpr (by intro x hx; simpa using h₁ x hx),
        List.filter_eq_self.mpr (by intro x hx; simpa using h₂ x hx)]

/-- A message with only an id, as used in concrete delete scenarios. -/
def mkMsg (i : String) : Message := { id := i, role := "user" }

/-- Witness for C5: deleting "m2" from [m1, m2, m3] requests [m1, m3]. -/
theorem delete_removes_exactly_id_witness :
    handleDelete "m2" [mkMsg "m1", mkMsg "m2", mkMsg "m3"] = [mkMsg "m1", mkMsg "m3"] :=
  (delete_removes_exactly_id "m2" [mkMsg "m1", mkMsg "m2", mkMsg "m3"]).2.2.2
    [mkMsg "m1"] [mkMsg "m3"] (mkMsg "m2") rfl rfl
    (by intro x hx; simp [mkMsg] at hx; simp [hx, mkMsg])
    (by intro x hx; simp [mkMsg] at hx; simp [hx, mkMsg])

/-! ## Form submission (`onSubmit` of the input form) -/

/-- The argument object passed to `sendMessage`; the handler passes
`{ text: input }`, so the optional `files` key that `sendMessage` also
accepts is never present. -/
structure SendPayload where
  text : String
  files : Option (List String) := none
deriving DecidableEq

/-- The local draft owned by the component: the `input` text state and the
`files` state (attachment handles picked but never wired into the form). -/
structure FormState where
  input : String
  files : List String := []
deriving DecidableEq

/-- What one form submission does: the payload sent (if any), the next
local state, and whether the bound file-selection widget was cleared. -/
structure SubmitOutcome where
  sent : Option SendPayload
  next : FormState
  fileWidgetCleared : Bool
deriving DecidableEq

/-- Model of JS `s.trim()`: strips leading and trailing whitespace. -/
def strTrim (s : String) : String :=
  String.mk (((s.data.dropWhile Char.isWhitespace).reverse.dropWhile
    Char.isWhitespace).reverse)

/-- The form submit handler: it prevents the default, and when the trimmed
input is truthy it calls sendMessage with an object holding only the text
and then resets the input to the empty string. The `files` state and
`fileInputRef` are declared in the component but the handler neither reads,
forwards, nor clears them, and no file input element is bound to the ref. -/
def onSubmit (st : FormState) : SubmitOutcome :=
  if strTrim st.input ≠ "" then
    { sent := some { text := st.input },
      next := { input := "", files := st.files },
      fileWidgetCleared := false }
  else
    { sent := none, next := st, fileWidgetCleared := false }

/-- C4: submitting with whitespace-only pending text is a silent no-op: no
payload is sent and the local state is unchanged. -/
theorem empty_submit_is_noop (st : FormState) (h : strTrim st.input = "") :
    (onSubmit st).sent = none ∧ (onSubmit st).next = st := by
  simp [onSubmit, h]

/-- Witness for C4: submitting the whitespace draft "   " sends nothing. -/
theorem empty_submit_is_noop_witness :
    (onSubmit { input := "   " }).sent = none ∧
    (onSubmit { input := "   " }).next = { input := "   " } :=
  empty_submit_is_noop { input := "   " } (by decide)

/-- Counterexample for C3 at the draft (text "hi", one picked file): the
submission does not forward the attachment in the payload, does not clear
the pending attachment set, and does not clear the file-selection widget. -/
theorem submit_claim_counterexample :
    ¬ ((onSubmit { input := "hi", files := ["photo.png"] }).sent
          = some { text := "hi", files := some ["photo.png"] } ∧
       (onSubmit { input := "hi", files := ["photo.png"] }).next.files = [] ∧
       (onSubmit { input := "hi", files := ["photo.png"] }).fileWidgetCleared = true) := by
  decide

/-- C3 (amended): on non-empty trimmed text, the submission sends a payload
carrying only the text (no attachments), resets the text to empty, and
leaves the pending attachments and the file-selection widget untouched. -/
theorem submit_sends_text_only (st : FormState) (h : strTrim st.input ≠ "") :
    (onSubmit st).sent = some { text := st.input, files := none } ∧
    (onSubmit st).next.input = "" ∧
    (onSubmit st).next.files = st.files ∧
    (onSubmit st).fileWidgetCleared = false := by
  simp [onSubmit, h]

/-- Witness for C3 (amended): submitting the draft (text "hi", one picked
file) sends `{text := "hi"}` and keeps the picked file pending. -/
theorem submit_sends_text_only_witness :
    (onSubmit { input := "hi", files := ["photo.png"] }).sent
      = some { text := "hi", files := none } ∧
    (onSubmit { input := "hi", files := ["photo.png"] }).next.input = "" ∧
    (onSubmit { input := "hi", files := ["photo.png"] }).next.files = ["photo.png"] ∧
    (onSubmit { input := "hi", files := ["photo.png"] }).fileWidgetCleared = false :=
  submit_sends_text_only { input := "hi", files := ["photo.png"] } (by decide)

/-! ## Error banner and empty-state placeholder -/

/-- The imperative hook actions a control can be wired to. -/
inductive UIAction where
  | sendAction
  | stopStream
  | regenerateTurn
  | reloadChat
deriving DecidableEq

/-- The error banner block: message text plus the action its Retry button
invokes. -/
structure ErrorBanner where
  message : String
  retryAction : UIAction
deriving DecidableEq

/-- The error block of the JSX: when the hook reports a last-error value it
renders the banner text and a Retry button whose click handler calls the
reload action of the hook. -/
def errorBanner (err : Option String) : Option ErrorBanner :=
  match err with
  | some _ => some { message := "An error occurred.", retryAction := UIAction.reloadChat }
  | none => none

/-- C8: when the status is `error` and a last-error value is present, the
banner "An error occurred." is shown with its Retry control wired to
`reload`, the Regenerate control is enabled, and the Send control is
disabled. -/
theorem error_state_ui (s : SessionStatus) (e : String) (h : s = SessionStatus.error) :
    errorBanner (some e)
      = some { message := "An error occurred.", retryAction := UIAction.reloadChat } ∧
    canRegenerate s = true ∧ canSend s = false := by
  subst h
  exact ⟨rfl, by decide, by decide⟩

/-- Witness for C8: the error UI at the concrete error "network timeout". -/
theorem error_state_ui_witness :
    errorBanner (some "network timeout")
      = some { message := "An error occurred.", retryAction := UIAction.reloadChat } ∧
    canRegenerate SessionStatus.error = true ∧ canSend SessionStatus.error = false :=
  error_state_ui SessionStatus.error "network timeout" rfl

/-- The empty-state placeholder of the JSX: rendered exactly when the length
of the message list is zero. -/
def emptyPlaceholder (msgs : List Message) : Option String :=
  if msgs.length = 0 then some "No messages yet — start the conversation below."
  else none

/-- C10: the placeholder text is rendered exactly when the message list is
empty, and is absent for every non-empty list. -/
theorem placeholder_iff_empty (msgs : List Message) :
    (emptyPlaceholder msgs
        = some "No messages yet — start the conversation below." ↔ msgs = []) ∧
    (msgs ≠ [] → emptyPlaceholder msgs = none) := by
  cases msgs <;> simp [emptyPlaceholder]

/-- Witness for C10: the placeholder shows on the empty list and not on a
one-message list. -/
theorem placeholder_iff_empty_witness :
    emptyPlaceholder []
      = some "No messages yet — start the conversation below." ∧
    emptyPlaceholder [mkMsg "m1"] = none :=
  ⟨(placeholder_iff_empty []).1.mpr rfl,
   (placeholder_iff_empty [mkMsg "m1"]).2 (by simp)⟩

end ChatUI
